import Mathlib

/-!
Shallow embedding of the gesture-to-transform engine of `src/app.js`
(the overlay pan / pinch-zoom / rotate logic driven by pointer and touch
events), together with theorems about its behaviour.

Modelling choices:
* JS numbers are modelled as real numbers; `Math.hypot` becomes
  `Real.sqrt` of a sum of squares and `Math.atan2` is the usual case
  split over `Real.arctan`.
* The JS `Map` (insertion ordered; `set` on an existing key keeps its
  position, on a new key appends; `delete` removes) is modelled as an
  association list from numeric ids to points.
* `gestureStart` starts as `null`; a handler that would dereference the
  `null` snapshot (a thrown `TypeError`) is modelled as returning
  `none`, every other handler outcome as `some` of the next state.
* Rendering (`applyTransform` writing a CSS transform string) and DOM
  plumbing (`setPointerCapture`, `preventDefault`) have no effect on the
  engine state and are not modelled.
-/

namespace DrawingApp

noncomputable section

/-- A 2D point, the `{x, y}` records stored in the `pointers` map. -/
@[ext] structure Point where
  x : ℝ
  y : ℝ

/-- The overlay transform, the global `state = { tx, ty, scale, rot }`. -/
@[ext] structure TransformState where
  tx : ℝ
  ty : ℝ
  scale : ℝ
  rot : ℝ

/-- The gesture-start snapshot produced by `snapshot()`. -/
@[ext] structure Snap where
  tx : ℝ
  ty : ℝ
  scale : ℝ
  rot : ℝ
  p0 : Point
  p1 : Point

/-- The `pointers` map: insertion-ordered association list `id -> point`. -/
abbrev PointerMap := List (Nat × Point)

/-- The whole mutable state of the engine: the globals `state`,
`pointers` and `gestureStart` of `app.js`. -/
@[ext] structure AppState where
  transform : TransformState
  pointers : PointerMap
  gestureStart : Option Snap

/-- `pointers.has(id)`. -/
def mapHas (m : PointerMap) (id : Nat) : Bool :=
  m.any (fun e => e.1 == id)

/-- `pointers.set(id, p)`: overwrite in place if the key exists
(JS `Map.set` keeps the original insertion position), else append. -/
def mapSet (m : PointerMap) (id : Nat) (p : Point) : PointerMap :=
  if mapHas m id then m.map (fun e => if e.1 == id then (id, p) else e)
  else m ++ [(id, p)]

/-- `pointers.delete(id)`. -/
def mapDelete (m : PointerMap) (id : Nat) : PointerMap :=
  m.filter (fun e => !(e.1 == id))

/-- `distance(p, q) = Math.hypot(p.x - q.x, p.y - q.y)`. -/
def distance (p q : Point) : ℝ :=
  Real.sqrt ((p.x - q.x) ^ 2 + (p.y - q.y) ^ 2)

/-- `Math.atan2(y, x)` over the reals (the signed-zero distinctions of
IEEE floats collapse; `atan2(0, 0) = 0` as in JS). -/
def atan2 (y x : ℝ) : ℝ :=
  if 0 < x then Real.arctan (y / x)
  else if x < 0 then
    (if 0 ≤ y then Real.arctan (y / x) + Real.pi
     else Real.arctan (y / x) - Real.pi)
  else if 0 < y then Real.pi / 2
  else if y < 0 then -(Real.pi / 2)
  else 0

/-- `angle(p, q) = Math.atan2(q.y - p.y, q.x - p.x) * 180 / Math.PI`. -/
def angle (p q : Point) : ℝ :=
  atan2 (q.y - p.y) (q.x - p.x) * 180 / Real.pi

/-- `midpoint(p, q)`. -/
def midpoint (p q : Point) : Point :=
  ⟨(p.x + q.x) / 2, (p.y + q.y) / 2⟩

/-- `clamp(v, a, b) = Math.max(a, Math.min(b, v))`. -/
def clamp (v a b : ℝ) : ℝ :=
  max a (min b v)

/-- `snapshot()`: capture the live transform plus the first two pointer
positions (zero-valued placeholders when fewer than two exist). -/
def snapshot (st : AppState) : Snap :=
  { tx := st.transform.tx, ty := st.transform.ty,
    scale := st.transform.scale, rot := st.transform.rot,
    p0 := match st.pointers with
          | [] => ⟨0, 0⟩
          | e :: _ => e.2,
    p1 := match st.pointers with
          | _ :: e :: _ => e.2
          | _ => ⟨0, 0⟩ }

/-- The one-pointer branch of `updateTransformFromPointers`: pan from the
snapshot, leaving `scale` and `rot` of the current transform untouched. -/
def panUpdate (s : Snap) (p : Point) (t : TransformState) : TransformState :=
  { t with tx := s.tx + (p.x - s.p0.x), ty := s.ty + (p.y - s.p0.y) }

/-- The two-pointer branch of `updateTransformFromPointers`: pinch, rotate
and pan-by-midpoint from the snapshot, with `dist1 / (dist0 || 1)` as the
scale change. -/
def pinchUpdate (s : Snap) (a b : Point) : TransformState :=
  let dist0 := distance s.p0 s.p1
  let dist1 := distance a b
  let scaleChange := dist1 / (if dist0 = 0 then 1 else dist0)
  let ang0 := angle s.p0 s.p1
  let ang1 := angle a b
  let c0 := midpoint s.p0 s.p1
  let c1 := midpoint a b
  { tx := s.tx + (c1.x - c0.x),
    ty := s.ty + (c1.y - c0.y),
    scale := clamp (s.scale * scaleChange) 0.1 10,
    rot := s.rot + (ang1 - ang0) }

/-- `updateTransformFromPointers()`: early return on an empty map, pan
with one pointer, pinch with two or more; dereferences `gestureStart`
(`none` models the `TypeError` thrown when it is still `null`). -/
def updateTransformFromPointers (st : AppState) : Option AppState :=
  match st.pointers with
  | [] => some st
  | (_, p) :: rest =>
    match st.gestureStart with
    | none => none
    | some s =>
      match rest with
      | [] => some { st with transform := panUpdate s p st.transform }
      | (_, b) :: _ => some { st with transform := pinchUpdate s p b }

/-- `onPointerDown`: record the pointer, then retake the snapshot. -/
def onPointerDown (id : Nat) (p : Point) (st : AppState) : AppState :=
  let st1 : AppState := { st with pointers := mapSet st.pointers id p }
  { st1 with gestureStart := some (snapshot st1) }

/-- `onPointerMove`: a move for an id not in the map returns without any
effect; otherwise update the position and recompute. -/
def onPointerMove (id : Nat) (p : Point) (st : AppState) : Option AppState :=
  if mapHas st.pointers id then
    updateTransformFromPointers { st with pointers := mapSet st.pointers id p }
  else some st

/-- `onPointerUp` (also `pointercancel` / `pointerleave`): drop the
pointer, then retake the snapshot. -/
def onPointerUp (id : Nat) (st : AppState) : AppState :=
  let st1 : AppState := { st with pointers := mapDelete st.pointers id }
  { st1 with gestureStart := some (snapshot st1) }

/-- `onTouchStart`: upsert every changed touch, then retake the snapshot. -/
def onTouchStart (ts : List (Nat × Point)) (st : AppState) : AppState :=
  let st1 : AppState :=
    { st with pointers := ts.foldl (fun m t => mapSet m t.1 t.2) st.pointers }
  { st1 with gestureStart := some (snapshot st1) }

/-- `onTouchMove`: upsert every reported touch (no membership check, unlike
the pointer path), then recompute. -/
def onTouchMove (ts : List (Nat × Point)) (st : AppState) : Option AppState :=
  updateTransformFromPointers
    { st with pointers := ts.foldl (fun m t => mapSet m t.1 t.2) st.pointers }

/-- `onTouchEnd` (also `touchcancel`): drop every changed touch, then
retake the snapshot. -/
def onTouchEnd (ts : List Nat) (st : AppState) : AppState :=
  let st1 : AppState :=
    { st with pointers := ts.foldl (fun m id => mapDelete m id) st.pointers }
  { st1 with gestureStart := some (snapshot st1) }

/-- The reset button listener: `state.tx = 0; state.ty = 0;
state.scale = 1; state.rot = 0;` and nothing else on the engine state. -/
def resetState (st : AppState) : AppState :=
  { st with transform := { tx := 0, ty := 0, scale := 1, rot := 0 } }

/-- `computeInitialScale(imgW, imgH, frameW, frameH)`. -/
def computeInitialScale (imgW imgH frameW frameH : ℝ) : ℝ :=
  min (frameW / imgW) (frameH / imgH) * 0.9

/-- The `overlay.onload` handler: fit the image, reset translate and
rotation, keep pointers and snapshot. -/
def loadImage (imgW imgH frameW frameH : ℝ) (st : AppState) : AppState :=
  { st with transform :=
      { tx := 0, ty := 0,
        scale := computeInitialScale imgW imgH frameW frameH, rot := 0 } }

/-- Abstract input events of the pointer path plus the two explicit
triggers (reset button, image load). -/
inductive Event where
  | down : Nat → Point → Event
  | move : Nat → Point → Event
  | up : Nat → Event
  | reset : Event
  | fit : ℝ → ℝ → ℝ → ℝ → Event

/-- Dispatch one event to its handler. -/
def step (st : AppState) : Event → Option AppState
  | Event.down id p => some (onPointerDown id p st)
  | Event.move id p => onPointerMove id p st
  | Event.up id => some (onPointerUp id st)
  | Event.reset => some (resetState st)
  | Event.fit w h fw fh => some (loadImage w h fw fh st)

/-- Run a list of events from a state, stopping at the first error. -/
def runEvents (st : AppState) (es : List Event) : Option AppState :=
  es.foldlM (fun s e => step s e) st

/-- The state at script load: identity transform, no pointers, `null`
snapshot. -/
def initState : AppState :=
  { transform := { tx := 0, ty := 0, scale := 1, rot := 0 },
    pointers := [], gestureStart := none }

/-- Deliver a sequence of position-only updates through the pointer-move
handler. -/
def applyMoves (st : AppState) (ms : List (Nat × Point)) : Option AppState :=
  ms.foldlM (fun s m => onPointerMove m.1 m.2 s) st

/-- The id list of the pointer map, in insertion order. -/
def keys (m : PointerMap) : List Nat :=
  m.map (fun e => e.1)

/-- The transform as a pure function of the gesture snapshot and the live
pointer map — the spec's drift-freedom formulation of the recompute: pan
from the first pointer (snapshot scale and rotation) when one pointer is
live, pinch from the first two when more are. -/
def transformOfSnap (s : Snap) (m : PointerMap) : TransformState :=
  match m with
  | [] => ⟨s.tx, s.ty, s.scale, s.rot⟩
  | [(_, p)] => ⟨s.tx + (p.x - s.p0.x), s.ty + (p.y - s.p0.y), s.scale, s.rot⟩
  | (_, a) :: (_, b) :: _ => pinchUpdate s a b

end

/-! Helper lemmas: evaluating the geometry functions at the concrete
points the claims use, and unfolding the event runner. -/

theorem sqrt_eq_of_sq (a b : ℝ) (hb : 0 ≤ b) (h : b ^ 2 = a) :
    Real.sqrt a = b := by
  rw [← h, Real.sqrt_sq hb]

theorem distance_self (p : Point) : distance p p = 0 := by
  simp [distance]

theorem distance_eq_zero_iff (p q : Point) : distance p q = 0 ↔ p = q := by
  constructor
  · intro h
    have hle : (p.x - q.x) ^ 2 + (p.y - q.y) ^ 2 ≤ 0 := by
      by_contra hpos
      push_neg at hpos
      have := Real.sqrt_pos.mpr hpos
      rw [distance] at h
      linarith
    have hx : p.x - q.x = 0 := by
      have := sq_nonneg (p.x - q.x)
      have := sq_nonneg (p.y - q.y)
      nlinarith
    have hy : p.y - q.y = 0 := by
      have := sq_nonneg (p.x - q.x)
      have := sq_nonneg (p.y - q.y)
      nlinarith
    ext
    · linarith
    · linarith
  · rintro rfl
    exact distance_self p

theorem distance_h100 : distance ⟨0, 0⟩ ⟨100, 0⟩ = 100 := by
  unfold distance
  apply sqrt_eq_of_sq _ _ (by norm_num)
  norm_num

theorem distance_h200 : distance ⟨0, 0⟩ ⟨200, 0⟩ = 200 := by
  unfold distance
  apply sqrt_eq_of_sq _ _ (by norm_num)
  norm_num

theorem distance_v100 : distance ⟨0, 0⟩ ⟨0, 100⟩ = 100 := by
  unfold distance
  apply sqrt_eq_of_sq _ _ (by norm_num)
  norm_num

theorem atan2_zero_of_pos (x : ℝ) (hx : 0 < x) : atan2 0 x = 0 := by
  unfold atan2
  rw [if_pos hx]
  simp

theorem atan2_pos_of_zero (y : ℝ) (hy : 0 < y) : atan2 y 0 = Real.pi / 2 := by
  unfold atan2
  rw [if_neg (lt_irrefl 0), if_neg (lt_irrefl 0), if_pos hy]

theorem atan2_zero_zero : atan2 0 0 = 0 := by
  unfold atan2
  norm_num

theorem angle_self (p : Point) : angle p p = 0 := by
  unfold angle
  rw [sub_self, sub_self, atan2_zero_zero]
  ring

theorem angle_horiz (p q : Point) (hy : q.y = p.y) (hx : p.x < q.x) :
    angle p q = 0 := by
  unfold angle
  rw [hy, sub_self, atan2_zero_of_pos _ (sub_pos.mpr hx)]
  ring

theorem angle_vert (p q : Point) (hx : q.x = p.x) (hy : p.y < q.y) :
    angle p q = 90 := by
  unfold angle
  rw [hx, sub_self, atan2_pos_of_zero _ (sub_pos.mpr hy)]
  have hpi := Real.pi_ne_zero
  field_simp
  ring

theorem clamp_of_le (v a b : ℝ) (ha : a ≤ v) (hb : v ≤ b) : clamp v a b = v := by
  rw [clamp, min_eq_right hb, max_eq_right ha]

theorem distance_ne_zero (p q : Point) (h : p ≠ q) : distance p q ≠ 0 :=
  fun h0 => h ((distance_eq_zero_iff p q).mp h0)

/-- A pinch recompute whose live contacts sit exactly at the snapshot
contacts reproduces the snapshot transform, provided the two snapshot
contacts are distinct and the snapshot scale is inside the clamp range. -/
theorem pinchUpdate_unmoved (s : Snap) (hne : s.p0 ≠ s.p1)
    (h1 : 0.1 ≤ s.scale) (h2 : s.scale ≤ 10) :
    pinchUpdate s s.p0 s.p1 = ⟨s.tx, s.ty, s.scale, s.rot⟩ := by
  have hd := distance_ne_zero s.p0 s.p1 hne
  simp [pinchUpdate, hd, div_self hd, clamp_of_le s.scale 0.1 10 h1 h2]

theorem runEvents_nil (st : AppState) : runEvents st [] = some st := rfl

theorem runEvents_cons (st : AppState) (e : Event) (es : List Event) :
    runEvents st (e :: es) = (step st e).bind (fun s => runEvents s es) := rfl

theorem runEvents_append (st : AppState) (l1 l2 : List Event) :
    runEvents st (l1 ++ l2) = (runEvents st l1).bind (fun s => runEvents s l2) := by
  induction l1 generalizing st with
  | nil =>
    simp [runEvents_nil]
  | cons e es ih =>
    rw [List.cons_append, runEvents_cons, runEvents_cons]
    cases step st e with
    | none => rfl
    | some st1 => simpa using ih st1

/-! Claim theorems. -/

/-- C9: the reset listener sets the transform to `{tx 0, ty 0, scale 1,
rot 0}` unconditionally from every prior state, and iterating it any
number of times yields the same state as one call. -/
theorem c9_reset_unconditional_idempotent :
    (∀ st : AppState, (resetState st).transform = ⟨0, 0, 1, 0⟩) ∧
    (∀ (st : AppState) (n : ℕ), resetState^[n + 1] st = resetState st) := by
  refine ⟨fun st => rfl, fun st n => ?_⟩
  induction n generalizing st with
  | zero => rfl
  | succ k ih =>
    rw [Function.iterate_succ_apply, ih (resetState st)]
    rfl

/-- C10: reset changes only the transform, leaving the pointer map and
gesture snapshot intact; consequently a move delivered after a reset,
while a contact is held, recomputes from the pre-reset snapshot `s`: with
one contact `tx`/`ty` are overwritten from `s` (scale and rotation stay
at their reset values 1 and 0), with two contacts all four fields are
recomputed from `s`. -/
theorem c10_reset_keeps_contacts_and_snapshot :
    (∀ st : AppState, (resetState st).pointers = st.pointers) ∧
    (∀ st : AppState, (resetState st).gestureStart = st.gestureStart) ∧
    (∀ (st : AppState) (i : Nat) (q : Point) (s : Snap) (p : Point),
      st.pointers = [(i, q)] → st.gestureStart = some s →
      onPointerMove i p (resetState st) =
        some { transform := ⟨s.tx + (p.x - s.p0.x), s.ty + (p.y - s.p0.y), 1, 0⟩,
               pointers := [(i, p)], gestureStart := some s }) ∧
    (∀ (st : AppState) (i j : Nat) (q b : Point) (s : Snap) (p : Point),
      i ≠ j →
      st.pointers = [(i, q), (j, b)] → st.gestureStart = some s →
      onPointerMove i p (resetState st) =
        some { transform := pinchUpdate s p b,
               pointers := [(i, p), (j, b)], gestureStart := some s }) := by
  refine ⟨fun st => rfl, fun st => rfl, ?_, ?_⟩
  · intro st i q s p hp hs
    simp [onPointerMove, resetState, mapHas, mapSet, hp, hs,
      updateTransformFromPointers, panUpdate]
  · intro st i j q b s p hij hp hs
    simp [onPointerMove, resetState, mapHas, mapSet, hp, hs,
      updateTransformFromPointers, hij, Ne.symm hij]

/-- Witness for C10: applying the theorem at a one-contact state and at a
two-contact state with explicit values. -/
theorem c10_reset_keeps_contacts_and_snapshot_witness :
    (onPointerMove 1 ⟨7, 8⟩
        (resetState { transform := ⟨4, 5, 6, 7⟩,
                      pointers := [(1, ⟨2, 3⟩)],
                      gestureStart := some ⟨10, 20, 5, 30, ⟨100, 200⟩, ⟨0, 0⟩⟩ }) =
      some { transform := ⟨10 + ((7 : ℝ) - 100), 20 + ((8 : ℝ) - 200), 1, 0⟩,
             pointers := [(1, ⟨7, 8⟩)],
             gestureStart := some ⟨10, 20, 5, 30, ⟨100, 200⟩, ⟨0, 0⟩⟩ }) ∧
    (onPointerMove 1 ⟨7, 8⟩
        (resetState { transform := ⟨4, 5, 6, 7⟩,
                      pointers := [(1, ⟨2, 3⟩), (2, ⟨9, 9⟩)],
                      gestureStart := some ⟨10, 20, 5, 30, ⟨100, 200⟩, ⟨0, 0⟩⟩ }) =
      some { transform := pinchUpdate ⟨10, 20, 5, 30, ⟨100, 200⟩, ⟨0, 0⟩⟩ ⟨7, 8⟩ ⟨9, 9⟩,
             pointers := [(1, ⟨7, 8⟩), (2, ⟨9, 9⟩)],
             gestureStart := some ⟨10, 20, 5, 30, ⟨100, 200⟩, ⟨0, 0⟩⟩ }) := by
  constructor
  · exact c10_reset_keeps_contacts_and_snapshot.2.2.1
      { transform := ⟨4, 5, 6, 7⟩, pointers := [(1, ⟨2, 3⟩)],
        gestureStart := some ⟨10, 20, 5, 30, ⟨100, 200⟩, ⟨0, 0⟩⟩ }
      1 ⟨2, 3⟩ ⟨10, 20, 5, 30, ⟨100, 200⟩, ⟨0, 0⟩⟩ ⟨7, 8⟩ rfl rfl
  · exact c10_reset_keeps_contacts_and_snapshot.2.2.2
      { transform := ⟨4, 5, 6, 7⟩, pointers := [(1, ⟨2, 3⟩), (2, ⟨9, 9⟩)],
        gestureStart := some ⟨10, 20, 5, 30, ⟨100, 200⟩, ⟨0, 0⟩⟩ }
      1 2 ⟨2, 3⟩ ⟨9, 9⟩ ⟨10, 20, 5, 30, ⟨100, 200⟩, ⟨0, 0⟩⟩ ⟨7, 8⟩
      (by decide) rfl rfl

/-- C5: with exactly one active contact, a move of that contact to its
snapshot position displaced by `(dx, dy)` sets `tx`/`ty` to the
snapshot's `tx0`/`ty0` plus `(dx, dy)` and leaves `scale` and `rot` of
the current transform unchanged. -/
theorem c5_single_contact_pan
    (st : AppState) (i : Nat) (q : Point) (s : Snap) (dx dy : ℝ)
    (hp : st.pointers = [(i, q)]) (hs : st.gestureStart = some s) :
    onPointerMove i ⟨s.p0.x + dx, s.p0.y + dy⟩ st =
      some { st with
             pointers := [(i, ⟨s.p0.x + dx, s.p0.y + dy⟩)],
             transform := { st.transform with tx := s.tx + dx, ty := s.ty + dy } } := by
  have hx : s.p0.x + dx - s.p0.x = dx := by ring
  have hy : s.p0.y + dy - s.p0.y = dy := by ring
  simp [onPointerMove, mapHas, mapSet, hp, hs, updateTransformFromPointers,
    panUpdate, hx, hy]

/-- Witness for C5: the pan theorem at the spec's scenario, contact down
at `(100, 100)` moved by `(50, 30)` from identity. -/
theorem c5_single_contact_pan_witness :
    onPointerMove 1 ⟨(100 : ℝ) + 50, (100 : ℝ) + 30⟩
        { transform := ⟨0, 0, 1, 0⟩, pointers := [(1, ⟨100, 100⟩)],
          gestureStart := some ⟨0, 0, 1, 0, ⟨100, 100⟩, ⟨0, 0⟩⟩ } =
      some { transform := ⟨(0 : ℝ) + 50, (0 : ℝ) + 30, 1, 0⟩,
             pointers := [(1, ⟨(100 : ℝ) + 50, (100 : ℝ) + 30⟩)],
             gestureStart := some ⟨0, 0, 1, 0, ⟨100, 100⟩, ⟨0, 0⟩⟩ } :=
  c5_single_contact_pan
    { transform := ⟨0, 0, 1, 0⟩, pointers := [(1, ⟨100, 100⟩)],
      gestureStart := some ⟨0, 0, 1, 0, ⟨100, 100⟩, ⟨0, 0⟩⟩ }
    1 ⟨100, 100⟩ ⟨0, 0, 1, 0, ⟨100, 100⟩, ⟨0, 0⟩⟩ 50 30 rfl rfl

/-- C6: the denominator of the scale change, `dist0 || 1`, is never zero,
and when the snapshot distance is zero the scale is computed with
denominator 1 (no division by zero; over the reals no NaN can arise). -/
theorem c6_zero_distance_guard (s : Snap) (a b : Point) :
    ((if distance s.p0 s.p1 = 0 then (1 : ℝ) else distance s.p0 s.p1) ≠ 0) ∧
    (distance s.p0 s.p1 = 0 →
      (pinchUpdate s a b).scale = clamp (s.scale * (distance a b / 1)) 0.1 10) := by
  constructor
  · split
    · norm_num
    · assumption
  · intro h0
    simp [pinchUpdate, h0]

/-- Witness for C6: a snapshot whose two recorded contacts coincide, so
its distance is zero and the guarded denominator is 1. -/
theorem c6_zero_distance_guard_witness :
    (pinchUpdate ⟨0, 0, 1, 0, ⟨3, 4⟩, ⟨3, 4⟩⟩ ⟨0, 0⟩ ⟨6, 8⟩).scale =
      clamp (1 * (distance ⟨0, 0⟩ ⟨6, 8⟩ / 1)) 0.1 10 :=
  (c6_zero_distance_guard ⟨0, 0, 1, 0, ⟨3, 4⟩, ⟨3, 4⟩⟩ ⟨0, 0⟩ ⟨6, 8⟩).2
    (distance_self ⟨3, 4⟩)

/-- C2 (amended): on the pointer-event path a move for an id absent from
the contact set is a silent no-op: the whole state is returned unchanged
and no error occurs. (The touch fallback behaves differently, see the
counterexample.) -/
theorem c2_unknown_move_noop_pointer_path
    (st : AppState) (id : Nat) (p : Point)
    (h : mapHas st.pointers id = false) :
    onPointerMove id p st = some st := by
  simp [onPointerMove, h]

/-- Witness for C2: a move for the absent id 5 leaves a one-contact state
untouched. -/
theorem c2_unknown_move_noop_pointer_path_witness :
    onPointerMove 5 ⟨1, 1⟩
        { transform := ⟨0, 0, 1, 0⟩, pointers := [(1, ⟨0, 0⟩)],
          gestureStart := some ⟨0, 0, 1, 0, ⟨0, 0⟩, ⟨0, 0⟩⟩ } =
      some { transform := ⟨0, 0, 1, 0⟩, pointers := [(1, ⟨0, 0⟩)],
             gestureStart := some ⟨0, 0, 1, 0, ⟨0, 0⟩, ⟨0, 0⟩⟩ } :=
  c2_unknown_move_noop_pointer_path
    { transform := ⟨0, 0, 1, 0⟩, pointers := [(1, ⟨0, 0⟩)],
      gestureStart := some ⟨0, 0, 1, 0, ⟨0, 0⟩, ⟨0, 0⟩⟩ } 5 ⟨1, 1⟩ rfl

/-- C2 counterexample: on the touch-event fallback a move reporting the
unknown id 2 is not a no-op: the contact set gains id 2 (and the
transform is recomputed), refuting the claim for that input path. -/
theorem c2_unknown_move_touch_counterexample :
    (onTouchMove [(1, ⟨0, 0⟩), (2, ⟨10, 10⟩)]
        { transform := ⟨0, 0, 1, 0⟩, pointers := [(1, ⟨0, 0⟩)],
          gestureStart := some ⟨0, 0, 1, 0, ⟨0, 0⟩, ⟨0, 0⟩⟩ } =
      some { transform := pinchUpdate ⟨0, 0, 1, 0, ⟨0, 0⟩, ⟨0, 0⟩⟩ ⟨0, 0⟩ ⟨10, 10⟩,
             pointers := [(1, ⟨0, 0⟩), (2, ⟨10, 10⟩)],
             gestureStart := some ⟨0, 0, 1, 0, ⟨0, 0⟩, ⟨0, 0⟩⟩ }) ∧
    [(1, (⟨0, 0⟩ : Point)), (2, ⟨10, 10⟩)] ≠ [(1, (⟨0, 0⟩ : Point))] := by
  constructor
  · simp [onTouchMove, mapSet, mapHas, updateTransformFromPointers]
  · simp

/-- C1 (amended): the pinch recompute always clamps scale into
`[0.1, 10]`, the pan recompute never changes scale, reset sets it to 1,
but the initial-fit trigger stores `min(FW/W, FH/H) * 0.9` unclamped. -/
theorem c1_scale_bounds_amended :
    (∀ (s : Snap) (a b : Point),
      0.1 ≤ (pinchUpdate s a b).scale ∧ (pinchUpdate s a b).scale ≤ 10) ∧
    (∀ (s : Snap) (p : Point) (t : TransformState),
      (panUpdate s p t).scale = t.scale) ∧
    (∀ st : AppState, (resetState st).transform.scale = 1) ∧
    (∀ (st : AppState) (w h fw fh : ℝ),
      (loadImage w h fw fh st).transform.scale = min (fw / w) (fh / h) * 0.9) := by
  refine ⟨?_, fun s p t => rfl, fun st => rfl, fun st w h fw fh => rfl⟩
  intro s a b
  constructor
  · exact le_max_left _ _
  · exact max_le (by norm_num) (min_le_left _ _)

/-- C1 counterexample: loading a 1-by-1 image into a 100-by-100 frame is
a reachable mutation that sets scale to 90, outside `[0.1, 10]`. -/
theorem c1_scale_bounds_counterexample :
    runEvents initState [Event.fit 1 1 100 100] =
      some (loadImage 1 1 100 100 initState) ∧
    (loadImage 1 1 100 100 initState).transform.scale = 90 ∧
    ¬ (loadImage 1 1 100 100 initState).transform.scale ≤ 10 := by
  refine ⟨rfl, ?_, ?_⟩
  · simp [loadImage, computeInitialScale, initState]
    norm_num
  · simp [loadImage, computeInitialScale, initState]
    norm_num

/-- C4: with two contacts the recompute applies the pinch formulas —
clamped scale from the distance ratio, additive rotation from the angle
difference, translation from the midpoint displacement — and on the
concrete scenario (down at `(0,0)` and `(100,0)`, second contact moved to
`(200,0)` from the identity transform) yields
`tx = 50, ty = 0, scale = 2, rot = 0`. -/
theorem c4_pinch_formula_and_scenario :
    (∀ (s : Snap) (a b : Point), distance s.p0 s.p1 ≠ 0 →
      pinchUpdate s a b =
        { tx := s.tx + ((midpoint a b).x - (midpoint s.p0 s.p1).x),
          ty := s.ty + ((midpoint a b).y - (midpoint s.p0 s.p1).y),
          scale := clamp (s.scale * (distance a b / distance s.p0 s.p1)) 0.1 10,
          rot := s.rot + (angle a b - angle s.p0 s.p1) }) ∧
    runEvents initState
        [Event.down 1 ⟨0, 0⟩, Event.down 2 ⟨100, 0⟩, Event.move 2 ⟨200, 0⟩] =
      some { transform := ⟨50, 0, 2, 0⟩,
             pointers := [(1, ⟨0, 0⟩), (2, ⟨200, 0⟩)],
             gestureStart := some ⟨0, 0, 1, 0, ⟨0, 0⟩, ⟨100, 0⟩⟩ } := by
  constructor
  · intro s a b h0
    simp [pinchUpdate, h0]
  · rw [runEvents_cons]
    simp [step, onPointerDown, mapSet, mapHas, snapshot, initState]
    rw [runEvents_cons]
    simp [step, onPointerDown, mapSet, mapHas, snapshot]
    rw [runEvents_cons]
    simp [step, onPointerMove, mapSet, mapHas, updateTransformFromPointers,
      runEvents_nil, pinchUpdate, distance_h100, distance_h200, clamp, midpoint,
      angle_horiz, Point.ext_iff, TransformState.ext_iff]
    norm_num [min_def, max_def]

/-- Witness for C4: the pinch formula applied to the scenario's snapshot
and current contacts, whose snapshot distance 100 is nonzero. -/
theorem c4_pinch_formula_and_scenario_witness :
    pinchUpdate ⟨0, 0, 1, 0, ⟨0, 0⟩, ⟨100, 0⟩⟩ ⟨0, 0⟩ ⟨200, 0⟩ =
      { tx := 0 + ((midpoint ⟨0, 0⟩ ⟨200, 0⟩).x - (midpoint ⟨0, 0⟩ ⟨100, 0⟩).x),
        ty := 0 + ((midpoint ⟨0, 0⟩ ⟨200, 0⟩).y - (midpoint ⟨0, 0⟩ ⟨100, 0⟩).y),
        scale := clamp (1 * (distance ⟨0, 0⟩ ⟨200, 0⟩ / distance ⟨0, 0⟩ ⟨100, 0⟩)) 0.1 10,
        rot := 0 + (angle ⟨0, 0⟩ ⟨200, 0⟩ - angle ⟨0, 0⟩ ⟨100, 0⟩) } :=
  c4_pinch_formula_and_scenario.1 ⟨0, 0, 1, 0, ⟨0, 0⟩, ⟨100, 0⟩⟩ ⟨0, 0⟩ ⟨200, 0⟩
    (by rw [distance_h100]; norm_num)

/-- C7: rotation is purely additive — every two-contact recompute sets
`rot` to the snapshot rotation plus the `atan2`-angle difference in
degrees, with no wrapping — and the concrete double gesture (rotate the
second contact by 90 degrees, lift it, put it back, rotate by 90 degrees
again) accumulates to 180. -/
theorem c7_rotation_additive :
    (∀ (s : Snap) (a b : Point),
      (pinchUpdate s a b).rot = s.rot + (angle a b - angle s.p0 s.p1)) ∧
    runEvents initState
        [Event.down 1 ⟨0, 0⟩, Event.down 2 ⟨100, 0⟩, Event.move 2 ⟨0, 100⟩,
         Event.up 2, Event.down 2 ⟨100, 0⟩, Event.move 2 ⟨0, 100⟩] =
      some { transform := ⟨-100, 100, 1, 180⟩,
             pointers := [(1, ⟨0, 0⟩), (2, ⟨0, 100⟩)],
             gestureStart := some ⟨-50, 50, 1, 90, ⟨0, 0⟩, ⟨100, 0⟩⟩ } := by
  constructor
  · intro s a b
    simp [pinchUpdate]
  · have h3 : runEvents initState
        [Event.down 1 ⟨0, 0⟩, Event.down 2 ⟨100, 0⟩, Event.move 2 ⟨0, 100⟩] =
        some { transform := ⟨-50, 50, 1, 90⟩,
               pointers := [(1, ⟨0, 0⟩), (2, ⟨0, 100⟩)],
               gestureStart := some ⟨0, 0, 1, 0, ⟨0, 0⟩, ⟨100, 0⟩⟩ } := by
      rw [runEvents_cons]
      simp [step, onPointerDown, mapSet, mapHas, snapshot, initState]
      rw [runEvents_cons]
      simp [step, onPointerDown, mapSet, mapHas, snapshot]
      rw [runEvents_cons]
      simp [step, onPointerMove, mapSet, mapHas, updateTransformFromPointers,
        runEvents_nil, pinchUpdate, distance_h100, distance_v100, clamp,
        midpoint, angle_horiz, angle_vert, Point.ext_iff, TransformState.ext_iff]
      norm_num [min_def, max_def]
    have hsplit : ([Event.down 1 ⟨0, 0⟩, Event.down 2 ⟨100, 0⟩,
        Event.move 2 ⟨0, 100⟩, Event.up 2, Event.down 2 ⟨100, 0⟩,
        Event.move 2 ⟨0, 100⟩] : List Event) =
        [Event.down 1 ⟨0, 0⟩, Event.down 2 ⟨100, 0⟩, Event.move 2 ⟨0, 100⟩] ++
        [Event.up 2, Event.down 2 ⟨100, 0⟩, Event.move 2 ⟨0, 100⟩] := rfl
    rw [hsplit, runEvents_append, h3]
    show runEvents _ _ = _
    rw [runEvents_cons]
    simp [step, onPointerUp, mapDelete, snapshot]
    rw [runEvents_cons]
    simp [step, onPointerDown, mapSet, mapHas, snapshot]
    rw [runEvents_cons]
    simp [step, onPointerMove, mapSet, mapHas, updateTransformFromPointers,
      runEvents_nil, pinchUpdate, distance_h100, distance_v100, clamp,
      midpoint, angle_horiz, angle_vert, Point.ext_iff, TransformState.ext_iff]
    norm_num [min_def, max_def]

/-- C3 counterexample: two contacts put down at the same point `(5, 5)`
(a 1-to-2 transition with coincident positions, transform still the
identity), then a recompute with both contacts unmoved: the scale jumps
from 1 to 0.1, because the zero snapshot distance makes the scale change
`0 / 1 = 0` and the clamp floors it at 0.1. -/
theorem c3_snapshot_continuity_counterexample :
    runEvents initState [Event.down 1 ⟨5, 5⟩, Event.down 2 ⟨5, 5⟩] =
      some { transform := ⟨0, 0, 1, 0⟩,
             pointers := [(1, ⟨5, 5⟩), (2, ⟨5, 5⟩)],
             gestureStart := some ⟨0, 0, 1, 0, ⟨5, 5⟩, ⟨5, 5⟩⟩ } ∧
    runEvents initState
        [Event.down 1 ⟨5, 5⟩, Event.down 2 ⟨5, 5⟩, Event.move 1 ⟨5, 5⟩] =
      some { transform := ⟨0, 0, 0.1, 0⟩,
             pointers := [(1, ⟨5, 5⟩), (2, ⟨5, 5⟩)],
             gestureStart := some ⟨0, 0, 1, 0, ⟨5, 5⟩, ⟨5, 5⟩⟩ } ∧
    (1 : ℝ) ≠ 0.1 := by
  refine ⟨?_, ?_, by norm_num⟩
  · rw [runEvents_cons]
    simp [step, onPointerDown, mapSet, mapHas, snapshot, initState]
    rw [runEvents_cons]
    simp [step, onPointerDown, mapSet, mapHas, snapshot, runEvents_nil]
  · rw [runEvents_cons]
    simp [step, onPointerDown, mapSet, mapHas, snapshot, initState]
    rw [runEvents_cons]
    simp [step, onPointerDown, mapSet, mapHas, snapshot]
    rw [runEvents_cons]
    simp [step, onPointerMove, mapSet, mapHas, updateTransformFromPointers,
      runEvents_nil, pinchUpdate, distance_self, angle_self, clamp,
      midpoint, Point.ext_iff, TransformState.ext_iff]
    norm_num [min_def, max_def]

/-- C3 (amended): contact-count transitions are continuous with the
remaining contacts unmoved, except that a 1-to-2 transition needs the two
contacts at distinct positions and a pre-transition scale inside
`[0.1, 10]`. A 2-to-1 transition (either contact lifted) is continuous
unconditionally; a 1-to-2 transition with `i ≠ j`, distinct positions and
in-range scale is continuous; in each case the state after the transition
and one unmoved recompute keeps the pre-transition transform. -/
theorem c3_snapshot_continuity_amended :
    (∀ (st : AppState) (i j : Nat) (a b : Point), i ≠ j →
      st.pointers = [(i, a), (j, b)] →
      runEvents st [Event.up i, Event.move j b] =
        some { st with
               pointers := [(j, b)],
               gestureStart := some ⟨st.transform.tx, st.transform.ty,
                 st.transform.scale, st.transform.rot, b, ⟨0, 0⟩⟩ }) ∧
    (∀ (st : AppState) (i j : Nat) (a b : Point), i ≠ j →
      st.pointers = [(i, a), (j, b)] →
      runEvents st [Event.up j, Event.move i a] =
        some { st with
               pointers := [(i, a)],
               gestureStart := some ⟨st.transform.tx, st.transform.ty,
                 st.transform.scale, st.transform.rot, a, ⟨0, 0⟩⟩ }) ∧
    (∀ (st : AppState) (i j : Nat) (a b : Point), i ≠ j → a ≠ b →
      st.pointers = [(i, a)] →
      0.1 ≤ st.transform.scale → st.transform.scale ≤ 10 →
      runEvents st [Event.down j b, Event.move i a] =
        some { st with
               pointers := [(i, a), (j, b)],
               gestureStart := some ⟨st.transform.tx, st.transform.ty,
                 st.transform.scale, st.transform.rot, a, b⟩ }) := by
  refine ⟨?_, ?_, ?_⟩
  · intro st i j a b hij hp
    rw [runEvents_cons]
    simp [step, onPointerUp, mapDelete, hp, hij, Ne.symm hij, snapshot]
    rw [runEvents_cons]
    simp [step, onPointerMove, mapSet, mapHas, updateTransformFromPointers,
      runEvents_nil, panUpdate]
  · intro st i j a b hij hp
    rw [runEvents_cons]
    simp [step, onPointerUp, mapDelete, hp, hij, Ne.symm hij, snapshot]
    rw [runEvents_cons]
    simp [step, onPointerMove, mapSet, mapHas, updateTransformFromPointers,
      runEvents_nil, panUpdate]
  · intro st i j a b hij hab hp h1 h2
    rw [runEvents_cons]
    simp [step, onPointerDown, mapSet, mapHas, hp, hij, Ne.symm hij, snapshot]
    rw [runEvents_cons]
    simp [step, onPointerMove, mapSet, mapHas, updateTransformFromPointers,
      runEvents_nil, hij, Ne.symm hij,
      pinchUpdate_unmoved ⟨st.transform.tx, st.transform.ty,
        st.transform.scale, st.transform.rot, a, b⟩ hab h1 h2]

/-- Witness for C3 (amended): the three continuity statements applied at
explicit two- and one-contact states with distinct positions and scale 3. -/
theorem c3_snapshot_continuity_amended_witness :
    (runEvents { transform := ⟨1, 2, 3, 4⟩,
                 pointers := [(1, ⟨5, 6⟩), (2, ⟨7, 8⟩)], gestureStart := none }
        [Event.up 1, Event.move 2 ⟨7, 8⟩] =
      some { transform := ⟨1, 2, 3, 4⟩, pointers := [(2, ⟨7, 8⟩)],
             gestureStart := some ⟨1, 2, 3, 4, ⟨7, 8⟩, ⟨0, 0⟩⟩ }) ∧
    (runEvents { transform := ⟨1, 2, 3, 4⟩,
                 pointers := [(1, ⟨5, 6⟩), (2, ⟨7, 8⟩)], gestureStart := none }
        [Event.up 2, Event.move 1 ⟨5, 6⟩] =
      some { transform := ⟨1, 2, 3, 4⟩, pointers := [(1, ⟨5, 6⟩)],
             gestureStart := some ⟨1, 2, 3, 4, ⟨5, 6⟩, ⟨0, 0⟩⟩ }) ∧
    (runEvents { transform := ⟨1, 2, 3, 4⟩,
                 pointers := [(1, ⟨5, 6⟩)], gestureStart := none }
        [Event.down 2 ⟨7, 8⟩, Event.move 1 ⟨5, 6⟩] =
      some { transform := ⟨1, 2, 3, 4⟩,
             pointers := [(1, ⟨5, 6⟩), (2, ⟨7, 8⟩)],
             gestureStart := some ⟨1, 2, 3, 4, ⟨5, 6⟩, ⟨7, 8⟩⟩ }) := by
  refine ⟨?_, ?_, ?_⟩
  · exact c3_snapshot_continuity_amended.1
      { transform := ⟨1, 2, 3, 4⟩, pointers := [(1, ⟨5, 6⟩), (2, ⟨7, 8⟩)],
        gestureStart := none }
      1 2 ⟨5, 6⟩ ⟨7, 8⟩ (by decide) rfl
  · exact c3_snapshot_continuity_amended.2.1
      { transform := ⟨1, 2, 3, 4⟩, pointers := [(1, ⟨5, 6⟩), (2, ⟨7, 8⟩)],
        gestureStart := none }
      1 2 ⟨5, 6⟩ ⟨7, 8⟩ (by decide) rfl
  · exact c3_snapshot_continuity_amended.2.2
      { transform := ⟨1, 2, 3, 4⟩, pointers := [(1, ⟨5, 6⟩)],
        gestureStart := none }
      1 2 ⟨5, 6⟩ ⟨7, 8⟩ (by decide) (by norm_num [Point.mk.injEq]) rfl
      (by norm_num) (by norm_num)

/-! Supporting lemmas for the purity claim: an in-place update keeps the
key structure of the pointer map, and a move for a known id rewrites the
transform to the pure function of snapshot and live map. -/

theorem keys_mapSet (m : PointerMap) (i : Nat) (p : Point)
    (h : mapHas m i = true) : keys (mapSet m i p) = keys m := by
  rw [mapSet, if_pos h, keys, keys, List.map_map]
  apply List.map_congr_left
  intro e _
  by_cases he : e.1 = i
  · simp [he]
  · simp [he]

theorem mapHas_eq_keys_any (m : PointerMap) (j : Nat) :
    mapHas m j = (keys m).any (fun k => k == j) := by
  induction m with
  | nil => rfl
  | cons e t ih =>
    simp only [mapHas, keys, List.any_cons, List.map_cons] at ih ⊢
    rw [ih]

theorem mapHas_eq_of_keys (m1 m2 : PointerMap) (j : Nat)
    (h : keys m1 = keys m2) : mapHas m1 j = mapHas m2 j := by
  rw [mapHas_eq_keys_any, mapHas_eq_keys_any, h]

theorem length_mapSet (m : PointerMap) (i : Nat) (p : Point)
    (h : mapHas m i = true) : (mapSet m i p).length = m.length := by
  rw [mapSet, if_pos h, List.length_map]

theorem mapHas_ne_nil (m : PointerMap) (i : Nat) (h : mapHas m i = true) :
    m ≠ [] := by
  intro h0
  rw [h0] at h
  simp [mapHas] at h

theorem onPointerMove_known (st : AppState) (s : Snap) (i : Nat) (p : Point)
    (hgs : st.gestureStart = some s) (hi : mapHas st.pointers i = true)
    (hsr : st.transform.scale = s.scale ∧ st.transform.rot = s.rot ∨
           2 ≤ st.pointers.length) :
    onPointerMove i p st =
      some { st with
             pointers := mapSet st.pointers i p,
             transform := transformOfSnap s (mapSet st.pointers i p) } := by
  have hlen : (mapSet st.pointers i p).length = st.pointers.length :=
    length_mapSet st.pointers i p hi
  rw [onPointerMove, if_pos hi]
  rcases hms : mapSet st.pointers i p with _ | ⟨⟨k, q⟩, tail⟩
  · exfalso
    apply mapHas_ne_nil st.pointers i hi
    rw [hms] at hlen
    exact List.length_eq_zero.mp hlen.symm
  · rcases tail with _ | ⟨⟨l, b⟩, rest⟩
    · have hone : st.pointers.length = 1 := by
        rw [hms] at hlen
        exact hlen.symm
      obtain ⟨h1, h2⟩ := hsr.resolve_right (by omega)
      simp [updateTransformFromPointers, hms, hgs, transformOfSnap, panUpdate,
        TransformState.ext_iff, h1, h2]
    · simp [updateTransformFromPointers, hms, hgs, transformOfSnap]

theorem applyMoves_pure (s : Snap) (ms : List (Nat × Point)) :
    ∀ st : AppState,
      st.gestureStart = some s →
      (∀ m ∈ ms, mapHas st.pointers m.1 = true) →
      (st.transform.scale = s.scale ∧ st.transform.rot = s.rot ∨
        2 ≤ st.pointers.length) →
      ms ≠ [] →
      ∃ st2 : AppState, applyMoves st ms = some st2 ∧
        st2.gestureStart = some s ∧
        keys st2.pointers = keys st.pointers ∧
        st2.transform = transformOfSnap s st2.pointers := by
  induction ms with
  | nil =>
    intro st _ _ _ hne
    exact absurd rfl hne
  | cons m rest ih =>
    intro st hgs hknown hsr _
    have hm : mapHas st.pointers m.1 = true :=
      hknown m (List.mem_cons_self m rest)
    have hstep := onPointerMove_known st s m.1 m.2 hgs hm hsr
    have hunfold : applyMoves st (m :: rest) =
        (onPointerMove m.1 m.2 st).bind (fun s1 => applyMoves s1 rest) := rfl
    have hkeys1 : keys (mapSet st.pointers m.1 m.2) = keys st.pointers :=
      keys_mapSet st.pointers m.1 m.2 hm
    by_cases hrest : rest = []
    · subst hrest
      refine ⟨{ st with
                pointers := mapSet st.pointers m.1 m.2,
                transform := transformOfSnap s (mapSet st.pointers m.1 m.2) },
              ?_, hgs, hkeys1, rfl⟩
      rw [hunfold, hstep]
      rfl
    · have hknown1 : ∀ x ∈ rest,
          mapHas (mapSet st.pointers m.1 m.2) x.1 = true := by
        intro x hx
        rw [mapHas_eq_of_keys _ st.pointers x.1 hkeys1]
        exact hknown x (List.mem_cons_of_mem m hx)
      have hsr1 :
          (transformOfSnap s (mapSet st.pointers m.1 m.2)).scale = s.scale ∧
            (transformOfSnap s (mapSet st.pointers m.1 m.2)).rot = s.rot ∨
          2 ≤ (mapSet st.pointers m.1 m.2).length := by
        rcases Nat.lt_or_ge (mapSet st.pointers m.1 m.2).length 2 with hl | hl
        · left
          have hne := mapHas_ne_nil st.pointers m.1 hm
          have hpos : 1 ≤ (mapSet st.pointers m.1 m.2).length := by
            rw [length_mapSet st.pointers m.1 m.2 hm]
            exact List.length_pos.mpr hne
          have hone : (mapSet st.pointers m.1 m.2).length = 1 := by omega
          obtain ⟨e, he⟩ := List.length_eq_one.mp hone
          rw [he]
          exact ⟨rfl, rfl⟩
        · right
          exact hl
      obtain ⟨st2, h2run, h2gs, h2keys, h2tr⟩ :=
        ih { st with
             pointers := mapSet st.pointers m.1 m.2,
             transform := transformOfSnap s (mapSet st.pointers m.1 m.2) }
          hgs hknown1 hsr1 hrest
      refine ⟨st2, ?_, h2gs, by rw [h2keys]; exact hkeys1, h2tr⟩
      rw [hunfold, hstep]
      exact h2run

/-- C8: within one gesture phase the recomputed transform is a pure
function of the snapshot and the final contact positions: from a common
phase-start state (snapshot just taken, so its scale and rotation agree
with the live transform), any two nonempty sequences of moves of already
tracked contacts that leave the pointer map in the same final state
produce the same transform, whatever the number and order of
intermediate moves. -/
theorem c8_phase_purity (st : AppState) (s : Snap)
    (ms1 ms2 : List (Nat × Point)) (st1 st2 : AppState)
    (hgs : st.gestureStart = some s)
    (hscale : st.transform.scale = s.scale) (hrot : st.transform.rot = s.rot)
    (h1ne : ms1 ≠ []) (h2ne : ms2 ≠ [])
    (h1k : ∀ m ∈ ms1, mapHas st.pointers m.1 = true)
    (h2k : ∀ m ∈ ms2, mapHas st.pointers m.1 = true)
    (h1run : applyMoves st ms1 = some st1)
    (h2run : applyMoves st ms2 = some st2)
    (hsame : st1.pointers = st2.pointers) :
    st1.transform = st2.transform := by
  obtain ⟨t1, ht1run, _, _, ht1⟩ :=
    applyMoves_pure s ms1 st hgs h1k (Or.inl ⟨hscale, hrot⟩) h1ne
  obtain ⟨t2, ht2run, _, _, ht2⟩ :=
    applyMoves_pure s ms2 st hgs h2k (Or.inl ⟨hscale, hrot⟩) h2ne
  rw [h1run] at ht1run
  rw [h2run] at ht2run
  cases Option.some.inj ht1run
  cases Option.some.inj ht2run
  rw [ht1, ht2, hsame]

/-- Witness for C8: from a one-contact phase start, one direct move to
`(5, 5)` and a two-step detour through `(3, 3)` ending at `(5, 5)` yield
the same transform. -/
theorem c8_phase_purity_witness :
    ({ transform := ⟨5, 5, 1, 0⟩, pointers := [(1, ⟨5, 5⟩)],
       gestureStart := some ⟨0, 0, 1, 0, ⟨0, 0⟩, ⟨0, 0⟩⟩ } : AppState).transform =
      ({ transform := ⟨5, 5, 1, 0⟩, pointers := [(1, ⟨5, 5⟩)],
         gestureStart := some ⟨0, 0, 1, 0, ⟨0, 0⟩, ⟨0, 0⟩⟩ } : AppState).transform := by
  refine c8_phase_purity
    { transform := ⟨0, 0, 1, 0⟩, pointers := [(1, ⟨0, 0⟩)],
      gestureStart := some ⟨0, 0, 1, 0, ⟨0, 0⟩, ⟨0, 0⟩⟩ }
    ⟨0, 0, 1, 0, ⟨0, 0⟩, ⟨0, 0⟩⟩
    [(1, ⟨5, 5⟩)] [(1, ⟨3, 3⟩), (1, ⟨5, 5⟩)] _ _
    rfl rfl rfl (by simp) (by simp)
    (by intro m hm; simp at hm; rw [hm]; rfl)
    (by intro m hm; simp at hm; rcases hm with hm | hm <;> rw [hm] <;> rfl)
    ?_ ?_ rfl
  · show applyMoves _ [(1, ⟨5, 5⟩)] = _
    simp [applyMoves, onPointerMove, mapHas, mapSet,
      updateTransformFromPointers, panUpdate, TransformState.ext_iff]
  · show applyMoves _ [(1, ⟨3, 3⟩), (1, ⟨5, 5⟩)] = _
    simp [applyMoves, onPointerMove, mapHas, mapSet,
      updateTransformFromPointers, panUpdate, TransformState.ext_iff]

end DrawingApp
